import Mathlib

/-!
Verification of the feed-pagination and denormalized-counter subsystem of the
`network` Django application (models.py, posts.py, profiles.py, utils.py).

The database is modeled as an explicit state: rows of the Post table as a list
of records, the two many-to-many edge tables (follows, likes) as finite sets of
ordered pairs, and each denormalized counter column as a total map keyed by the
row's primary key (an `UPDATE ... WHERE id = x SET c = c + 1` becomes a
pointwise function update).  View functions are translated one-for-one from the
Python source; HTTP responses become an inductive `Resp` value carrying the
JSON payload and status code.
-/

namespace SocialNetwork

/-- A row of the Post table (models.py 188-260): primary key, author FK,
creation timestamp (datetimes are modeled as integers on a linear timeline),
and text content. -/
structure PostRec where
  id : Nat
  userId : Nat
  timestamp : Int
  content : String
  deriving DecidableEq

/-- The database state.  `follows` holds (follower, followee) pairs — the
User.followers many-to-many through-table; `likes` holds (user, post) pairs —
the Post.likes through-table.  Counter columns are maps keyed by primary key. -/
structure Db where
  users : List Nat
  posts : List PostRec
  follows : Finset (Nat × Nat)
  likes : Finset (Nat × Nat)
  followersCount : Nat → Nat
  followingCount : Nat → Nat
  likeCount : Nat → Nat
  postCount : Nat → Nat

/-- The empty initial state: no rows, no edges, all counters zero. -/
def emptyDb : Db :=
  { users := [], posts := [], follows := ∅, likes := ∅,
    followersCount := fun _ => 0, followingCount := fun _ => 0,
    likeCount := fun _ => 0, postCount := fun _ => 0 }

/-- An incoming HTTP request, as the view functions observe it:
`request.user.is_authenticated`, `request.user.id`, the GET parameters
`user_id`, `timestamp`, `post_id` (absent parameter = `none`), and the JSON
body as an association list (`none` models a body that fails to parse as
JSON). -/
structure Req where
  authenticated : Bool
  userId : Nat
  userIdParam : Option String
  timestampParam : Option String
  postIdParam : Option String
  body : Option (List (String × String))

/-- A JsonResponse: the payload shape plus HTTP status code. -/
inductive Resp where
  | err (msg : String) (status : Nat)
  | page (posts : List PostRec) (hasNext : Bool) (status : Nat)
  | followOk (follow : Bool) (followersCount : Nat) (status : Nat)
  | likeOk (liked : Bool) (likeCount : Nat) (status : Nat)
  | msgOk (message : String) (status : Nat)
  | editOk (message : String) (content : String) (status : Nat)
  deriving DecidableEq

/-- The HTTP status code of a response. -/
def Resp.status : Resp → Nat
  | .err _ s => s
  | .page _ _ s => s
  | .followOk _ _ s => s
  | .likeOk _ _ s => s
  | .msgOk _ s => s
  | .editOk _ _ s => s

/-! ### String helpers: Python `int(...)` and `str.strip()` -/

/-- Accumulator loop of decimal-digit parsing. -/
def parseNatAux : List Char → Nat → Option Nat
  | [], acc => some acc
  | c :: cs, acc =>
      if c.isDigit then parseNatAux cs (acc * 10 + (c.toNat - 48)) else none

/-- Model of Python `int(s)` on a string: an optional leading minus sign
followed by at least one decimal digit; anything else raises ValueError
(modeled as `none`). -/
def parseInt? (s : String) : Option Int :=
  match s.data with
  | [] => none
  | '-' :: [] => none
  | '-' :: cs => (parseNatAux cs 0).map (fun n => -(n : Int))
  | cs => (parseNatAux cs 0).map (fun n => (n : Int))

/-- Whitespace recognized by Python `str.strip()`. -/
def isPySpace (c : Char) : Bool :=
  c = ' ' || c = '\t' || c = '\n' || c = '\r'

/-- Model of Python `str.strip()`. -/
def pyStrip (s : String) : String :=
  ⟨((s.data.dropWhile isPySpace).reverse.dropWhile isPySpace).reverse⟩

/-! ### Toggle engine: User.toggle_follow and Post.like_post -/

/-- User.toggle_follow (models.py 61-94).  A self-targeted call returns False
without touching state; otherwise the (self, target) edge is flipped and the
two counters (self's following_count, target's followers_count) are adjusted
in place. -/
def toggle_follow (db : Db) (selfId targetId : Nat) : Db × Bool :=
  if selfId = targetId then (db, false)
  else if (selfId, targetId) ∈ db.follows then
    ({ db with
        follows := db.follows.erase (selfId, targetId),
        followingCount := fun u =>
          if u = selfId then db.followingCount u - 1 else db.followingCount u,
        followersCount := fun u =>
          if u = targetId then db.followersCount u - 1 else db.followersCount u },
     false)
  else
    ({ db with
        follows := insert (selfId, targetId) db.follows,
        followingCount := fun u =>
          if u = selfId then db.followingCount u + 1 else db.followingCount u,
        followersCount := fun u =>
          if u = targetId then db.followersCount u + 1 else db.followersCount u },
     true)

/-- Post.like_post (models.py 214-240): flip membership of (user, post) in the
likes table and adjust the post's like_count in place. -/
def like_post (db : Db) (postId userId : Nat) : Db × Bool :=
  if (userId, postId) ∈ db.likes then
    ({ db with
        likes := db.likes.erase (userId, postId),
        likeCount := fun q =>
          if q = postId then db.likeCount q - 1 else db.likeCount q },
     false)
  else
    ({ db with
        likes := insert (userId, postId) db.likes,
        likeCount := fun q =>
          if q = postId then db.likeCount q + 1 else db.likeCount q },
     true)

/-- One exposed toggle operation: a follow toggle or a like toggle. -/
inductive Op where
  | follow (actorId targetId : Nat)
  | like (actorId postId : Nat)

/-- Run a sequence of toggle operations against a database state. -/
def runOps : Db → List Op → Db
  | db, [] => db
  | db, Op.follow a t :: ops => runOps (toggle_follow db a t).1 ops
  | db, Op.like a p :: ops => runOps (like_post db p a).1 ops

/-- Number of follow toggles of the pair (x, y) in a sequence. -/
def countFollow : List Op → Nat → Nat → Nat
  | [], _, _ => 0
  | Op.follow a t :: ops, x, y =>
      (if a = x ∧ t = y then 1 else 0) + countFollow ops x y
  | Op.like _ _ :: ops, x, y => countFollow ops x y

/-- Number of like toggles of the pair (x, p) in a sequence. -/
def countLike : List Op → Nat → Nat → Nat
  | [], _, _ => 0
  | Op.follow _ _ :: ops, x, y => countLike ops x y
  | Op.like a p :: ops, x, y =>
      (if a = x ∧ p = y then 1 else 0) + countLike ops x y

/-! ### User lookup (utils.get_user) -/

/-- utils.get_user (utils.py 68-86) applied to a GET-parameter string:
`int(user_id)` then a primary-key lookup; any parse failure or missing row
yields None. -/
def get_user (db : Db) (userId : Option String) : Option Nat :=
  match userId with
  | none => none
  | some s =>
    match parseInt? s with
    | none => none
    | some i => if 0 ≤ i ∧ i.toNat ∈ db.users then some i.toNat else none

/-- utils.get_user applied to an integer id from the URL route (int(id) is the
identity there): a plain primary-key lookup. -/
def get_user_by_id (db : Db) (id : Nat) : Option Nat :=
  if id ∈ db.users then some id else none

/-! ### Feed assembly: get_posts -/

/-- get_posts (posts.py 61-108).  Returns (error, posts, status); when the
status is not 200 the posts component is Post.objects.none(). -/
def get_posts (db : Db) (req : Req) (filter : String) :
    Option String × List PostRec × Nat :=
  let posts := db.posts
  let r : Option String × List PostRec × Nat :=
    if filter = "following" then
      if req.authenticated then
        (none, posts.filter (fun p => decide ((req.userId, p.userId) ∈ db.follows)), 200)
      else (some "User not authenticated.", posts, 401)
    else if filter = "all" then (none, posts, 200)
    else if filter = "profile" then
      match get_user db req.userIdParam with
      | some u => (none, posts.filter (fun p => decide (p.userId = u)), 200)
      | none => (some "User not found.", posts, 404)
    else (some "Filter not found.", posts, 404)
  (r.1, if r.2.2 = 200 then r.2.1 else [], r.2.2)

/-! ### Cursor paginator: paginate_posts -/

/-- Page size (posts.py 24). -/
def POST_LIMIT : Nat := 10

/-- The total preorder realised by order_by("-timestamp", "-id"):
`postLe a b` means a precedes (or keys equal) b in the feed. -/
def postLe (a b : PostRec) : Prop :=
  b.timestamp < a.timestamp ∨ (a.timestamp = b.timestamp ∧ b.id ≤ a.id)

instance : DecidableRel postLe := fun a b => by
  unfold postLe; exact inferInstance

instance : IsTotal PostRec postLe := ⟨by
  intro a b
  unfold postLe
  omega⟩

instance : IsTrans PostRec postLe := ⟨by
  intro a b c hab hbc
  unfold postLe at hab hbc ⊢
  omega⟩

/-- The ordering step of paginate_posts: `order_by("-timestamp", "-id")`. -/
def sortPosts (l : List PostRec) : List PostRec :=
  List.insertionSort postLe l

/-- Strict "scrolls later in the feed" order on (timestamp, id) keys; this is
exactly the continuation filter
`Q(timestamp__lt=t) | Q(timestamp=t, id__lt=i)` from posts.py 258-260. -/
def keyLt (a b : Int × Int) : Prop :=
  a.1 < b.1 ∨ (a.1 = b.1 ∧ a.2 < b.2)

instance : DecidableRel keyLt := fun a b => by
  unfold keyLt; exact inferInstance

/-- The (timestamp, id) cursor key of a post row. -/
def key (p : PostRec) : Int × Int := (p.timestamp, (p.id : Int))

/-- The ordered, optionally cursor-restricted entity set a page request ranges
over: order_by("-timestamp", "-id"), then — for a continuation — keep only
the rows strictly after the cursor position. -/
def cursorFilter (qs : List PostRec) (cursor : Option (Int × Int)) :
    List PostRec :=
  match cursor with
  | some c => (sortPosts qs).filter (fun p => decide (keyLt (key p) c))
  | none => sortPosts qs

/-- Core of paginate_posts (posts.py 251-272) once the cursor is parsed:
order, optionally filter to strictly-after-cursor, fetch page-size + 1 rows,
report hasNext, and trim to page-size. -/
def paginateCore (qs : List PostRec) (cursor : Option (Int × Int)) :
    Bool × List PostRec :=
  let fetched := (cursorFilter qs cursor).take (POST_LIMIT + 1)
  (decide (POST_LIMIT < fetched.length), fetched.take POST_LIMIT)

/-- paginate_posts (posts.py 251-272).  `parseDT` abstracts Django's
parse_datetime (an external collaborator).  Python truthiness in
`if timestamp and post_id:` makes a missing or empty-string cursor field skip
the cursor filter entirely.  On a parse failure the Python source returns a
dict instead of a 3-tuple; tuple unpacking in the callers then binds the three
names to the dict's keys, so the observed error component is the truthy string
"error" and the other two components are never read (modeled by inert
defaults). -/
def paginate_posts (parseDT : String → Option Int) (qs : List PostRec)
    (timestamp postId : Option String) :
    Option String × Bool × List PostRec :=
  match timestamp, postId with
  | some ts, some pid =>
    if ts = "" ∨ pid = "" then
      (none, (paginateCore qs none).1, (paginateCore qs none).2)
    else
      match parseDT ts, parseInt? pid with
      | some t, some i =>
        (none, (paginateCore qs (some (t, i))).1, (paginateCore qs (some (t, i))).2)
      | _, _ => (some "error", false, [])
  | _, _ => (none, (paginateCore qs none).1, (paginateCore qs none).2)

/-! ### Feed views -/

/-- posts_view (posts.py 29-58), after the require_get decorator: first feed
page for a filter.  The paginate error slot is ignored (`_`), matching the
source; a cursor-less call never produces one. -/
def posts_view (parseDT : String → Option Int) (db : Db) (req : Req)
    (filter : String) : Resp :=
  match get_posts db req filter with
  | (some e, _, status) => Resp.err e status
  | (none, qs, _) =>
    let r := paginate_posts parseDT qs none none
    if r.2.2.isEmpty then Resp.page [] false 200
    else Resp.page r.2.2 r.2.1 200

/-- get_more_posts (posts.py 226-248), after the require_get decorator:
continuation feed page driven by the `timestamp` and `post_id` GET
parameters. -/
def get_more_posts (parseDT : String → Option Int) (db : Db) (req : Req)
    (filter : String) : Resp :=
  match get_posts db req filter with
  | (some e, _, status) => Resp.err e status
  | (none, qs, _) =>
    match paginate_posts parseDT qs req.timestampParam req.postIdParam with
    | (some e, _, _) => Resp.err e 400
    | (none, hasNext, returnPosts) =>
      if returnPosts.isEmpty then Resp.page [] false 204
      else Resp.page returnPosts hasNext 200

/-! ### Body parsing and post update views -/

/-- get_body_content (utils.py 16-65) for a single key: invalid JSON and
missing keys raise InvalidRequestBodyError; string values are stripped. -/
def get_body_content (body : Option (List (String × String))) (key : String) :
    Except String String :=
  match body with
  | none => Except.error "Invalid JSON in request body"
  | some data =>
    match data.lookup key with
    | none => Except.error ("Missing required field: " ++ key)
    | some v => Except.ok (pyStrip v)

/-- validate_content (utils.py 122-138). -/
def validate_content (content : String) (length : Nat := 250) :
    Bool × Option String :=
  if pyStrip content = "" then (false, some "Content cannot be empty.")
  else if length < content.data.length then
    (false, some ("Content exceeds " ++ toString length ++ " characters."))
  else (true, none)

/-- edit_post (posts.py 160-190).  The Python function mutates the post object
in place and returns (success, message, status); the model also returns the
resulting database and the post's content afterwards (update_post reads
post.content for its response). -/
def edit_post (db : Db) (req : Req) (post : PostRec) :
    Bool × String × Nat × Db × String :=
  if post.userId ≠ req.userId then (false, "Unauthorized.", 403, db, post.content)
  else
    match get_body_content req.body "content" with
    | Except.error e => (false, e, 400, db, post.content)
    | Except.ok content =>
      let v := validate_content content
      if v.1 = false then (false, v.2.getD "", 400, db, post.content)
      else
        (true, "Post edited.", 200,
         { db with posts := db.posts.map (fun p =>
             if p.id = post.id then { p with content := content } else p) },
         content)

/-- Post.delete_post (models.py 206-212): delete the row (cascading to its
like edges) and decrement the owner's post_count in place. -/
def delete_post (db : Db) (post : PostRec) : Db :=
  { db with
      posts := db.posts.filter (fun p => decide (p.id ≠ post.id)),
      likes := db.likes.filter (fun e => e.2 ≠ post.id),
      postCount := fun u =>
        if u = post.userId then db.postCount u - 1 else db.postCount u }

/-- update_post (posts.py 111-157), after login_required / require_put_delete:
single entry point keyed by the body's `action` field. -/
def update_post (db : Db) (req : Req) (postId : Nat) : Db × Resp :=
  match db.posts.find? (fun p => decide (p.id = postId)) with
  | none => (db, Resp.err "Post does not exist." 400)
  | some post =>
    match get_body_content req.body "action" with
    | Except.error e => (db, Resp.err e 400)
    | Except.ok action =>
      if action = "like" then
        let r := like_post db postId req.userId
        (r.1, Resp.likeOk r.2 (r.1.likeCount postId) 200)
      else if action = "edit" then
        match edit_post db req post with
        | (true, msg, status, db', content) => (db', Resp.editOk msg content status)
        | (false, msg, status, _, _) => (db, Resp.err msg status)
      else if action = "delete" then
        if post.userId ≠ req.userId then (db, Resp.err "Unauthorized." 403)
        else (delete_post db post, Resp.msgOk "Post deleted." 200)
      else (db, Resp.err ("Invalid action: " ++ action) 400)

/-! ### Follow view -/

/-- follow_view (profiles.py 119-149), after login_required / require_put. -/
def follow_view (db : Db) (req : Req) (id : Nat) : Db × Resp :=
  match get_user_by_id db id with
  | none => (db, Resp.err "User not found." 404)
  | some target =>
    if target = req.userId then
      (db, Resp.err "You cannot follow yourself." 400)
    else
      let r := toggle_follow db req.userId target
      (r.1, Resp.followOk r.2 (r.1.followersCount target) 200)

/-! ### The client pagination loop (for completeness of cursor pagination) -/

/-- The cursor a client derives from a returned page: the last item's
(timestamp, id). -/
def lastCursor (page : List PostRec) : Option (Int × Int) :=
  match page.getLast? with
  | some p => some (key p)
  | none => none

/-- The client loop: fetch a page and, while hasNext is set, fetch the
continuation whose cursor is the last returned post's key.  Fuel bounds the
number of requests. -/
def pageChain (qs : List PostRec) : Nat → Option (Int × Int) → List PostRec
  | 0, _ => []
  | fuel + 1, c =>
    let r := paginateCore qs c
    if r.1 then r.2 ++ pageChain qs fuel (lastCursor r.2) else r.2

/-! ### Transaction-structure traces (models.py toggle methods)

To state where the membership existence check sits relative to the atomic
transaction, each toggle method body is transcribed as the sequence of
database statements it executes before entering `transaction.atomic()` and
the sequence it executes inside the block, per branch. -/

/-- A primitive database statement issued by a toggle method. -/
inductive DbAction where
  | membershipCheck
  | edgeAdd
  | edgeRemove
  | counterAdjust
  | refreshRead
  deriving DecidableEq

/-- The statements of one method call, split at the `with transaction.atomic()`
boundary. -/
structure MethodTrace where
  beforeAtomic : List DbAction
  insideAtomic : List DbAction
  deriving DecidableEq

/-- Statement layout of User.toggle_follow (models.py 61-94) for a non-self
call, by membership branch: line 72 evaluates the followers existence check,
line 74 opens transaction.atomic(), whose block holds the edge mutation and
the two counter updates. -/
def toggle_follow_trace (present : Bool) : MethodTrace :=
  { beforeAtomic := [DbAction.membershipCheck],
    insideAtomic :=
      if present then
        [DbAction.edgeRemove, DbAction.counterAdjust, DbAction.counterAdjust]
      else
        [DbAction.edgeAdd, DbAction.counterAdjust, DbAction.counterAdjust] }

/-- Statement layout of Post.like_post (models.py 214-240), by membership
branch: transaction.atomic() opens first (line 222); the existence check, the
edge mutation, the counter update and the refresh all run inside the block. -/
def like_post_trace (present : Bool) : MethodTrace :=
  { beforeAtomic := [],
    insideAtomic :=
      if present then
        [DbAction.membershipCheck, DbAction.edgeRemove, DbAction.counterAdjust,
         DbAction.refreshRead]
      else
        [DbAction.membershipCheck, DbAction.edgeAdd, DbAction.counterAdjust,
         DbAction.refreshRead] }

/-- Python truthiness of an optional string GET parameter: truthy iff present
and non-empty. -/
def optTruthy : Option String → Bool
  | none => false
  | some s => decide (s ≠ "")

/-! ### Paginator arithmetic -/

lemma take_take_limit (l : List PostRec) :
    (l.take (POST_LIMIT + 1)).take POST_LIMIT = l.take POST_LIMIT := by
  rw [List.take_take]
  norm_num [POST_LIMIT]

lemma hasNext_take (l : List PostRec) :
    decide (POST_LIMIT < (l.take (POST_LIMIT + 1)).length) =
      decide (POST_LIMIT < l.length) := by
  rw [decide_eq_decide, List.length_take]
  omega

/-- The fetch-trim step of the paginator, characterized directly on the
filtered set: the page is its first POST_LIMIT rows and hasNext reports
whether strictly more than POST_LIMIT rows exist. -/
lemma paginateCore_eq (qs : List PostRec) (c : Option (Int × Int)) :
    paginateCore qs c =
      (decide (POST_LIMIT < (cursorFilter qs c).length),
       (cursorFilter qs c).take POST_LIMIT) := by
  show (decide (POST_LIMIT < ((cursorFilter qs c).take (POST_LIMIT + 1)).length),
        ((cursorFilter qs c).take (POST_LIMIT + 1)).take POST_LIMIT) = _
  rw [take_take_limit, hasNext_take]

/-! ## Claim theorems -/

/-- C4: the claim says that for both toggle operations the membership existence
check executes inside the same atomic transaction as the edge mutation and the
counter adjustments, with no pre-check outside that transaction.  This holds
for Post.like_post, but User.toggle_follow evaluates its followers existence
check (models.py line 72) before the transaction.atomic() block opened at line
74, so the follow pre-check runs outside the transaction, in both membership
branches. -/
theorem C4_toggle_follow_precheck_outside_atomic (b : Bool) :
    DbAction.membershipCheck ∈ (toggle_follow_trace b).beforeAtomic ∧
    DbAction.membershipCheck ∉ (toggle_follow_trace b).insideAtomic ∧
    DbAction.membershipCheck ∈ (like_post_trace b).insideAtomic ∧
    (like_post_trace b).beforeAtomic = [] := by
  cases b <;> decide

/-- C7: feed assembly rejections: a 'following' request from an unauthenticated
requester yields a 401 authorization error, a 'profile' request whose user_id
resolves to no existing user yields a 404 not-found error, and an unrecognized
view name yields a 404 not-found error; each case returns the empty post
set. -/
theorem C7_feed_assembly_rejections (db : Db) (req : Req) :
    (req.authenticated = false →
      get_posts db req "following" = (some "User not authenticated.", [], 401)) ∧
    (get_user db req.userIdParam = none →
      get_posts db req "profile" = (some "User not found.", [], 404)) ∧
    (∀ f : String, f ≠ "following" → f ≠ "all" → f ≠ "profile" →
      get_posts db req f = (some "Filter not found.", [], 404)) := by
  refine ⟨fun h => ?_, fun h => ?_, fun f h1 h2 h3 => ?_⟩
  · simp [get_posts, h]
  · simp [get_posts, h]
  · simp [get_posts, h1, h2, h3]

/-- An unauthenticated request carrying an unresolvable user_id parameter. -/
def reqC7 : Req := ⟨false, 0, some "99", none, none, none⟩

/-- Witness for C7 at a concrete request against the empty database. -/
theorem C7_witness :
    (reqC7.authenticated = false ∧ get_user emptyDb reqC7.userIdParam = none ∧
     ("bogus" : String) ≠ "following" ∧ ("bogus" : String) ≠ "all" ∧
     ("bogus" : String) ≠ "profile") ∧
    get_posts emptyDb reqC7 "following" = (some "User not authenticated.", [], 401) ∧
    get_posts emptyDb reqC7 "profile" = (some "User not found.", [], 404) ∧
    get_posts emptyDb reqC7 "bogus" = (some "Filter not found.", [], 404) :=
  ⟨⟨rfl, by decide, by decide, by decide, by decide⟩,
   (C7_feed_assembly_rejections emptyDb reqC7).1 rfl,
   (C7_feed_assembly_rejections emptyDb reqC7).2.1 (by decide),
   (C7_feed_assembly_rejections emptyDb reqC7).2.2 "bogus" (by decide) (by decide)
     (by decide)⟩

/-- C9: a follow toggle whose target equals the acting user is rejected with
the policy error (400 "You cannot follow yourself.") before any state is
touched: follow_view returns exactly the input database, so the follow edge
set and every followers_count / following_count value are unchanged.  The
model method toggle_follow is likewise a no-op on a self target. -/
theorem C9_self_follow_rejected (db : Db) (req : Req)
    (hmem : req.userId ∈ db.users) :
    follow_view db req req.userId =
      (db, Resp.err "You cannot follow yourself." 400) ∧
    ∀ u : Nat, toggle_follow db u u = (db, false) := by
  constructor
  · simp [follow_view, get_user_by_id, hmem]
  · intro u
    simp [toggle_follow]

/-- A database containing just user 1. -/
def dbC9 : Db := { emptyDb with users := [1] }

/-- The authenticated request of user 1. -/
def reqC9 : Req := ⟨true, 1, none, none, none, none⟩

/-- Witness for C9: user 1 attempting to follow themselves. -/
theorem C9_witness :
    reqC9.userId ∈ dbC9.users ∧
    (follow_view dbC9 reqC9 reqC9.userId =
       (dbC9, Resp.err "You cannot follow yourself." 400) ∧
     ∀ u : Nat, toggle_follow dbC9 u u = (dbC9, false)) :=
  ⟨by decide, C9_self_follow_rejected dbC9 reqC9 (by decide)⟩

/-- C8: through the update_post entry point keyed by the body's action field,
edit and delete succeed only for the post's owner: for a non-owner actor both
return the 403 "Unauthorized." error and leave the database — hence the
post's content and existence — exactly unchanged, while the like action
proceeds regardless of ownership, performing the like toggle and answering
200. -/
theorem C8_update_post_ownership (db : Db) (req : Req) (postId : Nat)
    (post : PostRec)
    (hfind : db.posts.find? (fun p => decide (p.id = postId)) = some post)
    (hown : post.userId ≠ req.userId) :
    (get_body_content req.body "action" = Except.ok "edit" →
      update_post db req postId = (db, Resp.err "Unauthorized." 403)) ∧
    (get_body_content req.body "action" = Except.ok "delete" →
      update_post db req postId = (db, Resp.err "Unauthorized." 403)) ∧
    (get_body_content req.body "action" = Except.ok "like" →
      update_post db req postId =
        ((like_post db postId req.userId).1,
         Resp.likeOk (like_post db postId req.userId).2
           ((like_post db postId req.userId).1.likeCount postId) 200)) := by
  refine ⟨fun h => ?_, fun h => ?_, fun h => ?_⟩
  · simp [update_post, hfind, h, edit_post, hown]
  · simp [update_post, hfind, h, hown]
  · simp [update_post, hfind, h]

/-- A database with one post, owned by user 7. -/
def dbC8 : Db := { emptyDb with users := [7, 9], posts := [⟨1, 7, 5, "orig"⟩] }

/-- Requests by non-owner user 9 for each action. -/
def reqC8edit : Req :=
  ⟨true, 9, none, none, none, some [("action", "edit"), ("content", "hack")]⟩

/-- Delete request by non-owner user 9. -/
def reqC8delete : Req := ⟨true, 9, none, none, none, some [("action", "delete")]⟩

/-- Like request by non-owner user 9. -/
def reqC8like : Req := ⟨true, 9, none, none, none, some [("action", "like")]⟩

/-- Witness for C8: non-owner edit and delete are rejected unchanged, non-owner
like proceeds. -/
theorem C8_witness :
    (dbC8.posts.find? (fun p => decide (p.id = 1)) = some ⟨1, 7, 5, "orig"⟩ ∧
     (PostRec.mk 1 7 5 "orig").userId ≠ reqC8edit.userId ∧
     get_body_content reqC8edit.body "action" = Except.ok "edit" ∧
     get_body_content reqC8delete.body "action" = Except.ok "delete" ∧
     get_body_content reqC8like.body "action" = Except.ok "like") ∧
    update_post dbC8 reqC8edit 1 = (dbC8, Resp.err "Unauthorized." 403) ∧
    update_post dbC8 reqC8delete 1 = (dbC8, Resp.err "Unauthorized." 403) ∧
    update_post dbC8 reqC8like 1 =
      ((like_post dbC8 1 reqC8like.userId).1,
       Resp.likeOk (like_post dbC8 1 reqC8like.userId).2
         ((like_post dbC8 1 reqC8like.userId).1.likeCount 1) 200) :=
  ⟨⟨by decide, by decide, rfl, rfl, rfl⟩,
   (C8_update_post_ownership dbC8 reqC8edit 1 ⟨1, 7, 5, "orig"⟩ (by decide)
      (by decide)).1 rfl,
   (C8_update_post_ownership dbC8 reqC8delete 1 ⟨1, 7, 5, "orig"⟩ (by decide)
      (by decide)).2.1 rfl,
   (C8_update_post_ownership dbC8 reqC8like 1 ⟨1, 7, 5, "orig"⟩ (by decide)
      (by decide)).2.2 rfl⟩

/-- C5: a continuation request whose two cursor fields are both supplied and
non-empty but fail to parse (malformed timestamp or non-integer id) is
answered with a client input error: status 400 with an error message (the
message observed by callers is the string "error", since the Python source
returns a dict that the caller tuple-unpacks into its keys).  This response
is distinct from the 204 "no more results" outcome, so the malformed cursor is
never silently treated as "no cursor". -/
theorem C5_malformed_cursor_is_client_error (parseDT : String → Option Int)
    (db : Db) (req : Req) (filter : String) (qs : List PostRec)
    (ts pid : String)
    (hts : req.timestampParam = some ts) (hpid : req.postIdParam = some pid)
    (hts' : ts ≠ "") (hpid' : pid ≠ "")
    (hmal : parseDT ts = none ∨ parseInt? pid = none)
    (hget : get_posts db req filter = (none, qs, 200)) :
    get_more_posts parseDT db req filter = Resp.err "error" 400 ∧
    ∀ posts hasNext, Resp.err "error" 400 ≠ Resp.page posts hasNext 204 := by
  refine ⟨?_, fun posts hasNext => by simp⟩
  have hpag : paginate_posts parseDT qs req.timestampParam req.postIdParam =
      (some "error", false, []) := by
    rw [hts, hpid]
    simp only [paginate_posts]
    rw [if_neg (by simp [hts', hpid'])]
    rcases hmal with h | h
    · rw [h]
    · rw [h]
      cases parseDT ts <;> rfl
  simp [get_more_posts, hget, hpag]

/-- A continuation request with a malformed timestamp cursor field. -/
def reqC5 : Req := ⟨false, 0, none, some "garbage", some "3", none⟩

/-- Witness for C5: malformed timestamp against the empty database, on the
"all" view, instantiating the abstract datetime parser with parseInt?. -/
theorem C5_witness :
    (reqC5.timestampParam = some "garbage" ∧ reqC5.postIdParam = some "3" ∧
     ("garbage" : String) ≠ "" ∧ ("3" : String) ≠ "" ∧
     parseInt? "garbage" = none ∧
     get_posts emptyDb reqC5 "all" = (none, [], 200)) ∧
    get_more_posts parseInt? emptyDb reqC5 "all" = Resp.err "error" 400 ∧
    ∀ posts hasNext, Resp.err "error" 400 ≠ Resp.page posts hasNext 204 :=
  ⟨⟨rfl, rfl, by decide, by decide, by decide, by decide⟩,
   C5_malformed_cursor_is_client_error parseInt? emptyDb reqC5 "all" []
     "garbage" "3" rfl rfl (by decide) (by decide) (Or.inl (by decide))
     (by decide)⟩

/-- C6: empty-page policy at the boundary: a first-page request over a view
matching zero posts returns the explicit empty success (empty list, hasNext
false, status 200), while a continuation request whose parsed cursor lies at
or past the last item (no post is strictly after it) returns the distinct
empty "no more content" response with status 204 — not an error — and the
two outcomes are distinguishable. -/
theorem C6_empty_page_policy (parseDT : String → Option Int) (db : Db)
    (req : Req) (filter : String) (qs : List PostRec) :
    (get_posts db req filter = (none, [], 200) →
      posts_view parseDT db req filter = Resp.page [] false 200) ∧
    (∀ ts pid t i,
      req.timestampParam = some ts → req.postIdParam = some pid →
      ts ≠ "" → pid ≠ "" → parseDT ts = some t → parseInt? pid = some i →
      get_posts db req filter = (none, qs, 200) →
      (sortPosts qs).filter (fun p => decide (keyLt (key p) (t, i))) = [] →
      get_more_posts parseDT db req filter = Resp.page [] false 204) ∧
    Resp.page [] false 200 ≠ Resp.page [] false 204 := by
  refine ⟨fun h => ?_, fun ts pid t i h1 h2 h3 h4 h5 h6 h7 h8 => ?_, by simp⟩
  · simp [posts_view, h, paginate_posts, paginateCore_eq, cursorFilter,
      sortPosts, List.insertionSort]
  · have hpag : paginate_posts parseDT qs req.timestampParam req.postIdParam =
        (none, false, []) := by
      rw [h1, h2]
      simp only [paginate_posts]
      rw [if_neg (by simp [h3, h4]), h5, h6]
      show (none, (paginateCore qs (some (t, i))).1,
            (paginateCore qs (some (t, i))).2) = _
      rw [paginateCore_eq]
      simp [cursorFilter, h8, POST_LIMIT]
    simp [get_more_posts, h7, hpag]

/-- A database with a single post by user 7 at time 5. -/
def dbC6 : Db := { emptyDb with users := [7], posts := [⟨1, 7, 5, "a"⟩] }

/-- The continuation request whose cursor is exactly the last (only) post. -/
def reqC6 : Req := ⟨false, 0, none, some "5", some "1", none⟩

/-- Witness for C6: the empty database answers a first page with 200, and a
cursor at the last post of dbC6 answers 204. -/
theorem C6_witness :
    (get_posts emptyDb reqC9 "all" = (none, [], 200) ∧
     reqC6.timestampParam = some "5" ∧ reqC6.postIdParam = some "1" ∧
     ("5" : String) ≠ "" ∧ ("1" : String) ≠ "" ∧
     parseInt? "5" = some 5 ∧ parseInt? "1" = some 1 ∧
     get_posts dbC6 reqC6 "all" = (none, [⟨1, 7, 5, "a"⟩], 200) ∧
     (sortPosts [⟨1, 7, 5, "a"⟩]).filter
       (fun p => decide (keyLt (key p) (5, 1))) = []) ∧
    posts_view parseInt? emptyDb reqC9 "all" = Resp.page [] false 200 ∧
    get_more_posts parseInt? dbC6 reqC6 "all" = Resp.page [] false 204 :=
  ⟨⟨by decide, rfl, rfl, by decide, by decide, by decide, by decide, by decide,
    by decide⟩,
   (C6_empty_page_policy parseInt? emptyDb reqC9 "all" []).1 (by decide),
   (C6_empty_page_policy parseInt? dbC6 reqC6 "all" [⟨1, 7, 5, "a"⟩]).2.1
     "5" "1" 5 1 rfl rfl (by decide) (by decide) (by decide) (by decide)
     (by decide) (by decide)⟩

/-- C10 counterexample: the claim says a continuation request with a partially
supplied cursor is answered as a first page with a 200 success; but over a
view matching zero posts (empty database, "all" view, timestamp supplied,
post_id supplied empty) the code answers with the empty 204 "no more content"
response, whose status is not 200. -/
theorem C10_counterexample :
    get_more_posts parseInt? emptyDb ⟨false, 0, none, some "5", some "", none⟩
        "all" = Resp.page [] false 204 ∧
    (Resp.page [] false 204).status ≠ 200 := by
  constructor
  · decide
  · decide

/-- C10 (amended): a continuation request in which at most one of the two
cursor fields is truthy (a field missing, or supplied as the empty string) is
never answered with a malformed-cursor error: the cursor input is silently
ignored — pagination behaves exactly as the cursor-less first-page call —
and the response is the first POST_LIMIT posts with status 200 when the view
matches at least one post, or the empty 204 "no more content" response when
it matches none. -/
theorem C10_incomplete_cursor_ignored (parseDT : String → Option Int) (db : Db)
    (req : Req) (filter : String) (qs : List PostRec)
    (hget : get_posts db req filter = (none, qs, 200))
    (hpart : optTruthy req.timestampParam = false ∨
      optTruthy req.postIdParam = false) :
    paginate_posts parseDT qs req.timestampParam req.postIdParam =
      paginate_posts parseDT qs none none ∧
    (qs ≠ [] →
      get_more_posts parseDT db req filter =
        Resp.page ((sortPosts qs).take POST_LIMIT)
          (decide (POST_LIMIT < (sortPosts qs).length)) 200) ∧
    (qs = [] → get_more_posts parseDT db req filter = Resp.page [] false 204) := by
  have hsame : ∀ (T P : Option String),
      optTruthy T = false ∨ optTruthy P = false →
      paginate_posts parseDT qs T P = paginate_posts parseDT qs none none := by
    intro T P h
    rcases T with _ | ts <;> rcases P with _ | pid
    · rfl
    · rfl
    · rfl
    · have hcond : ts = "" ∨ pid = "" := by
        rcases h with h | h <;> simp [optTruthy] at h <;> tauto
      simp only [paginate_posts]
      rw [if_pos hcond]
  have hfirst : paginate_posts parseDT qs none none =
      (none, decide (POST_LIMIT < (sortPosts qs).length),
       (sortPosts qs).take POST_LIMIT) := by
    simp only [paginate_posts]
    rw [paginateCore_eq]
    rfl
  have hlen : (sortPosts qs).length = qs.length :=
    (List.perm_insertionSort postLe qs).length_eq
  refine ⟨hsame _ _ hpart, fun hne => ?_, fun hnil => ?_⟩
  · have hnil' : (sortPosts qs).take POST_LIMIT ≠ [] := by
      intro hc
      rcases List.take_eq_nil_iff.mp hc with h | h
      · exact absurd h (by norm_num [POST_LIMIT])
      · exact hne (List.eq_nil_of_length_eq_zero (by rw [← hlen, h]; rfl))
    have hne' : ((sortPosts qs).take POST_LIMIT).isEmpty = false := by
      rw [Bool.eq_false_iff]
      intro hc
      exact hnil' (List.isEmpty_iff.mp hc)
    simp [get_more_posts, hget, hsame _ _ hpart, hfirst, hne']
  · subst hnil
    have hsnil : sortPosts ([] : List PostRec) = [] := rfl
    simp [get_more_posts, hget, hsame _ _ hpart, hfirst, hsnil]

/-- The partial-cursor request: timestamp supplied, post_id empty. -/
def reqC10 : Req := ⟨false, 0, none, some "5", some "", none⟩

/-- Witness for C10 at a one-post database and at the empty database. -/
theorem C10_witness :
    (get_posts dbC6 reqC10 "all" = (none, [⟨1, 7, 5, "a"⟩], 200) ∧
     get_posts emptyDb reqC10 "all" = (none, [], 200) ∧
     optTruthy reqC10.postIdParam = false) ∧
    (get_more_posts parseInt? dbC6 reqC10 "all" =
      Resp.page ((sortPosts [⟨1, 7, 5, "a"⟩]).take POST_LIMIT)
        (decide (POST_LIMIT < (sortPosts [⟨1, 7, 5, "a"⟩]).length)) 200) ∧
    (get_more_posts parseInt? emptyDb reqC10 "all" = Resp.page [] false 204) :=
  ⟨⟨by decide, by decide, by decide⟩,
   (C10_incomplete_cursor_ignored parseInt? dbC6 reqC10 "all" [⟨1, 7, 5, "a"⟩]
      (by decide) (Or.inr (by decide))).2.1 (by decide),
   (C10_incomplete_cursor_ignored parseInt? emptyDb reqC10 "all" []
      (by decide) (Or.inr (by decide))).2.2 rfl⟩

/-- C2: for every filtered set of posts, the returned page is the first
POST_LIMIT posts of that set ordered by (timestamp desc, id desc) — for a
continuation request with valid cursor (t, i), restricted to the posts with
timestamp < t or (timestamp = t and id < i) — and hasNext is true iff
strictly more than POST_LIMIT such posts exist. -/
theorem C2_page_contents (parseDT : String → Option Int) (qs : List PostRec)
    (ts pid : String) (t i : Int)
    (hts : ts ≠ "") (hpid : pid ≠ "")
    (ht : parseDT ts = some t) (hi : parseInt? pid = some i) :
    paginate_posts parseDT qs (some ts) (some pid) =
      (none,
       decide (POST_LIMIT <
         ((sortPosts qs).filter (fun p => decide (keyLt (key p) (t, i)))).length),
       ((sortPosts qs).filter
         (fun p => decide (keyLt (key p) (t, i)))).take POST_LIMIT) ∧
    paginate_posts parseDT qs none none =
      (none, decide (POST_LIMIT < (sortPosts qs).length),
       (sortPosts qs).take POST_LIMIT) := by
  constructor
  · simp only [paginate_posts]
    rw [if_neg (by simp [hts, hpid]), ht, hi]
    show (none, (paginateCore qs (some (t, i))).1,
          (paginateCore qs (some (t, i))).2) = _
    rw [paginateCore_eq]
    rfl
  · simp only [paginate_posts]
    rw [paginateCore_eq]
    rfl

/-- Witness for C2: a three-post database with a timestamp tie, cursor at
(5, 2). -/
theorem C2_witness :
    (("5" : String) ≠ "" ∧ ("2" : String) ≠ "" ∧
     parseInt? "5" = some 5 ∧ parseInt? "2" = some 2) ∧
    (paginate_posts parseInt? [⟨1, 7, 5, "a"⟩, ⟨3, 8, 9, "c"⟩, ⟨2, 7, 5, "b"⟩]
        (some "5") (some "2") =
      (none,
       decide (POST_LIMIT <
         ((sortPosts [⟨1, 7, 5, "a"⟩, ⟨3, 8, 9, "c"⟩, ⟨2, 7, 5, "b"⟩]).filter
           (fun p => decide (keyLt (key p) (5, 2)))).length),
       ((sortPosts [⟨1, 7, 5, "a"⟩, ⟨3, 8, 9, "c"⟩, ⟨2, 7, 5, "b"⟩]).filter
         (fun p => decide (keyLt (key p) (5, 2)))).take POST_LIMIT) ∧
     paginate_posts parseInt? [⟨1, 7, 5, "a"⟩, ⟨3, 8, 9, "c"⟩, ⟨2, 7, 5, "b"⟩]
        none none =
      (none,
       decide (POST_LIMIT <
         (sortPosts [⟨1, 7, 5, "a"⟩, ⟨3, 8, 9, "c"⟩, ⟨2, 7, 5, "b"⟩]).length),
       (sortPosts [⟨1, 7, 5, "a"⟩, ⟨3, 8, 9, "c"⟩, ⟨2, 7, 5, "b"⟩]).take
         POST_LIMIT)) :=
  ⟨⟨by decide, by decide, by decide, by decide⟩,
   C2_page_contents parseInt? [⟨1, 7, 5, "a"⟩, ⟨3, 8, 9, "c"⟩, ⟨2, 7, 5, "b"⟩]
     "5" "2" 5 2 (by decide) (by decide) (by decide) (by decide)⟩

/-! ### Toggle-sequence invariant (for C1) -/

/-- The edge/counter invariant of a database state, relative to accumulated
per-pair toggle counts `f` (follows) and `l` (likes): an edge is present iff
its accumulated toggle count is odd (and, for follows, the pair is not a self
pair), and every denormalized counter equals the cardinality of the edge set
it mirrors. -/
def CounterInv (s : Db) (f l : Nat → Nat → Nat) : Prop :=
  (∀ a t : Nat, ((a, t) ∈ s.follows ↔ (a ≠ t ∧ Odd (f a t)))) ∧
  (∀ u p : Nat, ((u, p) ∈ s.likes ↔ Odd (l u p))) ∧
  (∀ q : Nat, s.likeCount q = (s.likes.filter (fun e => e.2 = q)).card) ∧
  (∀ v : Nat, s.followersCount v = (s.follows.filter (fun e => e.2 = v)).card) ∧
  (∀ v : Nat, s.followingCount v = (s.follows.filter (fun e => e.1 = v)).card)

lemma toggle_follow_inv (s : Db) (f l : Nat → Nat → Nat) (a t : Nat)
    (h : CounterInv s f l) :
    CounterInv (toggle_follow s a t).1
      (fun x y => f x y + if a = x ∧ t = y then 1 else 0) l := by
  obtain ⟨hF, hL, hlc, hfr, hfg⟩ := h
  unfold toggle_follow
  by_cases hat : a = t
  · rw [if_pos hat]
    refine ⟨fun x y => ?_, hL, hlc, hfr, hfg⟩
    rw [hF x y]
    by_cases hxy : a = x ∧ t = y
    · obtain ⟨hx, hy⟩ := hxy
      subst hx
      subst hy
      simp [hat]
    · simp only [if_neg hxy, Nat.add_zero]
  · rw [if_neg hat]
    by_cases hmem : (a, t) ∈ s.follows
    · rw [if_pos hmem]
      have hodd : Odd (f a t) := ((hF a t).mp hmem).2
      refine ⟨fun x y => ?_, hL, hlc, fun v => ?_, fun v => ?_⟩
      · show (x, y) ∈ s.follows.erase (a, t) ↔ _
        rw [Finset.mem_erase]
        by_cases hxy : a = x ∧ t = y
        · obtain ⟨hx, hy⟩ := hxy
          subst hx
          subst hy
          simp [Nat.odd_add_one, hodd, hat]
        · have hne : (x, y) ≠ (a, t) := by
            intro hc
            rw [Prod.mk.injEq] at hc
            exact hxy ⟨hc.1.symm, hc.2.symm⟩
          simp only [if_neg hxy, Nat.add_zero]
          simp [hne, hF x y]
      · show (if v = t then s.followersCount v - 1 else s.followersCount v) =
          ((s.follows.erase (a, t)).filter (fun e => e.2 = v)).card
        rw [Finset.filter_erase]
        by_cases hv : v = t
        · have hmemf : (a, t) ∈ s.follows.filter (fun e => e.2 = v) :=
            Finset.mem_filter.mpr ⟨hmem, hv.symm⟩
          rw [if_pos hv, hfr, Finset.card_erase_of_mem hmemf, hv]
        · rw [if_neg hv, hfr, Finset.erase_eq_of_not_mem]
          intro hc
          exact hv ((Finset.mem_filter.mp hc).2).symm
      · show (if v = a then s.followingCount v - 1 else s.followingCount v) =
          ((s.follows.erase (a, t)).filter (fun e => e.1 = v)).card
        rw [Finset.filter_erase]
        by_cases hv : v = a
        · have hmemf : (a, t) ∈ s.follows.filter (fun e => e.1 = v) :=
            Finset.mem_filter.mpr ⟨hmem, hv.symm⟩
          rw [if_pos hv, hfg, Finset.card_erase_of_mem hmemf, hv]
        · rw [if_neg hv, hfg, Finset.erase_eq_of_not_mem]
          intro hc
          exact hv ((Finset.mem_filter.mp hc).2).symm
    · rw [if_neg hmem]
      have hodd : ¬Odd (f a t) := fun hc => hmem ((hF a t).mpr ⟨hat, hc⟩)
      refine ⟨fun x y => ?_, hL, hlc, fun v => ?_, fun v => ?_⟩
      · show (x, y) ∈ insert (a, t) s.follows ↔ _
        rw [Finset.mem_insert]
        by_cases hxy : a = x ∧ t = y
        · obtain ⟨hx, hy⟩ := hxy
          subst hx
          subst hy
          simp [Nat.odd_add_one, hodd, hat]
        · have hne : (x, y) ≠ (a, t) := by
            intro hc
            rw [Prod.mk.injEq] at hc
            exact hxy ⟨hc.1.symm, hc.2.symm⟩
          simp only [if_neg hxy, Nat.add_zero]
          simp [hne, hF x y]
      · show (if v = t then s.followersCount v + 1 else s.followersCount v) =
          ((insert (a, t) s.follows).filter (fun e => e.2 = v)).card
        rw [Finset.filter_insert]
        by_cases hv : v = t
        · have hnmem : (a, t) ∉ s.follows.filter (fun e => e.2 = v) :=
            fun hc => hmem (Finset.mem_filter.mp hc).1
          rw [if_pos hv, if_pos hv.symm, hfr,
            Finset.card_insert_of_not_mem hnmem]
        · rw [if_neg hv, if_neg (fun hc => hv hc.symm), hfr]
      · show (if v = a then s.followingCount v + 1 else s.followingCount v) =
          ((insert (a, t) s.follows).filter (fun e => e.1 = v)).card
        rw [Finset.filter_insert]
        by_cases hv : v = a
        · have hnmem : (a, t) ∉ s.follows.filter (fun e => e.1 = v) :=
            fun hc => hmem (Finset.mem_filter.mp hc).1
          rw [if_pos hv, if_pos hv.symm, hfg,
            Finset.card_insert_of_not_mem hnmem]
        · rw [if_neg hv, if_neg (fun hc => hv hc.symm), hfg]

lemma like_post_inv (s : Db) (f l : Nat → Nat → Nat) (p a : Nat)
    (h : CounterInv s f l) :
    CounterInv (like_post s p a).1 f
      (fun x y => l x y + if a = x ∧ p = y then 1 else 0) := by
  obtain ⟨hF, hL, hlc, hfr, hfg⟩ := h
  unfold like_post
  by_cases hmem : (a, p) ∈ s.likes
  · rw [if_pos hmem]
    have hodd : Odd (l a p) := (hL a p).mp hmem
    refine ⟨hF, fun x y => ?_, fun q => ?_, hfr, hfg⟩
    · show (x, y) ∈ s.likes.erase (a, p) ↔ _
      rw [Finset.mem_erase]
      by_cases hxy : a = x ∧ p = y
      · obtain ⟨hx, hy⟩ := hxy
        subst hx
        subst hy
        simp [Nat.odd_add_one, hodd]
      · have hne : (x, y) ≠ (a, p) := by
          intro hc
          rw [Prod.mk.injEq] at hc
          exact hxy ⟨hc.1.symm, hc.2.symm⟩
        simp only [if_neg hxy, Nat.add_zero]
        simp [hne, hL x y]
    · show (if q = p then s.likeCount q - 1 else s.likeCount q) =
        ((s.likes.erase (a, p)).filter (fun e => e.2 = q)).card
      rw [Finset.filter_erase]
      by_cases hq : q = p
      · have hmemf : (a, p) ∈ s.likes.filter (fun e => e.2 = q) :=
          Finset.mem_filter.mpr ⟨hmem, hq.symm⟩
        rw [if_pos hq, hlc, Finset.card_erase_of_mem hmemf, hq]
      · rw [if_neg hq, hlc, Finset.erase_eq_of_not_mem]
        intro hc
        exact hq ((Finset.mem_filter.mp hc).2).symm
  · rw [if_neg hmem]
    have hodd : ¬Odd (l a p) := fun hc => hmem ((hL a p).mpr hc)
    refine ⟨hF, fun x y => ?_, fun q => ?_, hfr, hfg⟩
    · show (x, y) ∈ insert (a, p) s.likes ↔ _
      rw [Finset.mem_insert]
      by_cases hxy : a = x ∧ p = y
      · obtain ⟨hx, hy⟩ := hxy
        subst hx
        subst hy
        simp [Nat.odd_add_one, hodd]
      · have hne : (x, y) ≠ (a, p) := by
          intro hc
          rw [Prod.mk.injEq] at hc
          exact hxy ⟨hc.1.symm, hc.2.symm⟩
        simp only [if_neg hxy, Nat.add_zero]
        simp [hne, hL x y]
    · show (if q = p then s.likeCount q + 1 else s.likeCount q) =
        ((insert (a, p) s.likes).filter (fun e => e.2 = q)).card
      rw [Finset.filter_insert]
      by_cases hq : q = p
      · have hnmem : (a, p) ∉ s.likes.filter (fun e => e.2 = q) :=
          fun hc => hmem (Finset.mem_filter.mp hc).1
        rw [if_pos hq, if_pos hq.symm, hlc,
          Finset.card_insert_of_not_mem hnmem]
      · rw [if_neg hq, if_neg (fun hc => hq hc.symm), hlc]

lemma runOps_inv (ops : List Op) :
    ∀ (s : Db) (f l : Nat → Nat → Nat), CounterInv s f l →
      CounterInv (runOps s ops)
        (fun x y => f x y + countFollow ops x y)
        (fun x y => l x y + countLike ops x y) := by
  induction ops with
  | nil =>
    intro s f l h
    simpa [runOps, countFollow, countLike] using h
  | cons op ops ih =>
    intro s f l h
    cases op with
    | follow a t =>
      have h' := ih (toggle_follow s a t).1 _ _ (toggle_follow_inv s f l a t h)
      simpa [CounterInv, runOps, countFollow, countLike, Nat.add_assoc] using h'
    | like a p =>
      have h' := ih (like_post s p a).1 _ _ (like_post_inv s f l p a h)
      simpa [CounterInv, runOps, countFollow, countLike, Nat.add_assoc] using h'

lemma counterInv_empty :
    CounterInv emptyDb (fun _ _ => 0) (fun _ _ => 0) := by
  refine ⟨?_, ?_, ?_, ?_, ?_⟩ <;> intros <;> simp [emptyDb, Nat.odd_iff]

/-- C1 (amended): after any sequence of exposed toggle operations from the
initial state, a follow edge (a, t) is present iff a ≠ t and the pair was
toggled an odd number of times (a self-targeted follow toggle is a rejected
no-op, so a self pair is never present); a like edge is present iff the pair
was toggled an odd number of times; and every maintained counter equals the
cardinality of the edge set it mirrors: like_count of a post equals the size
of its likes set, and followers_count / following_count of a user equal the
number of present follow edges pointing at / out of that user. -/
theorem C1_toggle_parity_and_counters (ops : List Op) :
    (∀ a t : Nat, ((a, t) ∈ (runOps emptyDb ops).follows ↔
      (a ≠ t ∧ Odd (countFollow ops a t)))) ∧
    (∀ u p : Nat, ((u, p) ∈ (runOps emptyDb ops).likes ↔
      Odd (countLike ops u p))) ∧
    (∀ q : Nat, (runOps emptyDb ops).likeCount q =
      ((runOps emptyDb ops).likes.filter (fun e => e.2 = q)).card) ∧
    (∀ v : Nat, (runOps emptyDb ops).followersCount v =
      ((runOps emptyDb ops).follows.filter (fun e => e.2 = v)).card) ∧
    (∀ v : Nat, (runOps emptyDb ops).followingCount v =
      ((runOps emptyDb ops).follows.filter (fun e => e.1 = v)).card) := by
  obtain ⟨h1, h2, h3, h4, h5⟩ :=
    runOps_inv ops emptyDb (fun _ _ => 0) (fun _ _ => 0) counterInv_empty
  refine ⟨fun a t => ?_, fun u p => ?_, h3, h4, h5⟩
  · simpa using h1 a t
  · simpa using h2 u p

/-- C1 counterexample: a single self-targeted follow toggle is an odd number
of toggles of the pair (0, 0), yet after the sequence the edge is not present
— toggle_follow rejects self targets — so the claimed parity biconditional
fails as stated. -/
theorem C1_counterexample :
    ¬(((0, 0) ∈ (runOps emptyDb [Op.follow 0 0]).follows) ↔
      Odd (countFollow [Op.follow 0 0] 0 0)) := by
  intro hc
  have h1 : Odd (countFollow [Op.follow 0 0] 0 0) := by decide
  have h2 : (0, 0) ∈ (runOps emptyDb [Op.follow 0 0]).follows := hc.mpr h1
  exact absurd h2 (by decide)

/-! ### Cursor pagination completeness (for C3) -/

lemma keyLt_irrefl (k : Int × Int) : ¬keyLt k k := by
  unfold keyLt
  omega

lemma keyLt_asymm {a b : Int × Int} (h : keyLt a b) : ¬keyLt b a := by
  unfold keyLt at h ⊢
  omega

/-- The sorted feed is strictly key-descending once the post ids are pairwise
distinct (the id is the tie-break for timestamp collisions). -/
lemma sortPosts_strict (qs : List PostRec)
    (hid : (qs.map PostRec.id).Nodup) :
    (sortPosts qs).Pairwise (fun a b => keyLt (key b) (key a)) := by
  have hsorted : (sortPosts qs).Pairwise postLe :=
    List.sorted_insertionSort postLe qs
  have hperm : ((sortPosts qs).map PostRec.id).Perm (qs.map PostRec.id) :=
    (List.perm_insertionSort postLe qs).map PostRec.id
  have hnd : ((sortPosts qs).map PostRec.id).Nodup := hperm.nodup_iff.mpr hid
  have hnd' : (sortPosts qs).Pairwise (fun a b => a.id ≠ b.id) :=
    List.pairwise_map.mp hnd
  refine List.Pairwise.imp ?_ (hsorted.and hnd')
  rintro a b ⟨hle, hne⟩
  unfold postLe at hle
  show b.timestamp < a.timestamp ∨
    (b.timestamp = a.timestamp ∧ (b.id : Int) < (a.id : Int))
  omega

/-- In a strictly key-descending list split as L1 ++ e :: L2, the rows whose
key is strictly after e's key are exactly the suffix L2. -/
lemma filter_keyLt_append (L1 : List PostRec) (e : PostRec) (L2 : List PostRec)
    (hs : (L1 ++ e :: L2).Pairwise (fun a b => keyLt (key b) (key a))) :
    (L1 ++ e :: L2).filter (fun p => decide (keyLt (key p) (key e))) = L2 := by
  induction L1 with
  | nil =>
    simp only [List.nil_append] at hs ⊢
    rcases List.pairwise_cons.mp hs with ⟨hhead, _⟩
    rw [List.filter_cons, decide_eq_false (keyLt_irrefl (key e))]
    simp only [Bool.false_eq_true, if_false]
    apply List.filter_eq_self.mpr
    intro a ha
    exact decide_eq_true (hhead a ha)
  | cons x xs ih =>
    simp only [List.cons_append] at hs ⊢
    rcases List.pairwise_cons.mp hs with ⟨hhead, htail⟩
    have hmem : e ∈ xs ++ e :: L2 := by simp
    rw [List.filter_cons, decide_eq_false (keyLt_asymm (hhead e hmem))]
    simp only [Bool.false_eq_true, if_false]
    exact ih htail

/-- In a strictly key-descending list, the rows strictly after the key of the
element at index j are exactly the suffix past index j. -/
lemma filter_keyLt_drop (L : List PostRec)
    (hs : L.Pairwise (fun a b => keyLt (key b) (key a)))
    (j : Nat) (hj : j < L.length) :
    L.filter (fun p => decide (keyLt (key p) (key (L.get ⟨j, hj⟩)))) =
      L.drop (j + 1) := by
  obtain ⟨e, he⟩ : ∃ e, L.get ⟨j, hj⟩ = e := ⟨_, rfl⟩
  rw [he]
  have hsplit : L = L.take j ++ (e :: L.drop (j + 1)) := by
    conv_lhs => rw [← List.take_append_drop j L]
    rw [List.drop_eq_getElem_cons hj, show L[j] = e from he]
  conv_lhs => rw [hsplit]
  exact filter_keyLt_append _ _ _ (hsplit ▸ hs)

/-- The client pagination loop walks the whole suffix of the sorted feed that
the current cursor selects, provided the feed is strictly key-descending and
the fuel covers the remaining rows. -/
lemma pageChain_eq (qs : List PostRec)
    (hs : (sortPosts qs).Pairwise (fun a b => keyLt (key b) (key a))) :
    ∀ (fuel k : Nat) (c : Option (Int × Int)),
      cursorFilter qs c = (sortPosts qs).drop k →
      (sortPosts qs).length - k ≤ fuel →
      pageChain qs fuel c = (sortPosts qs).drop k := by
  intro fuel
  induction fuel with
  | zero =>
    intro k c hc hf
    have hnil : (sortPosts qs).drop k = [] :=
      List.drop_eq_nil_of_le (by omega)
    simp [pageChain, hnil]
  | succ fuel ih =>
    intro k c hc hf
    simp only [pageChain, paginateCore_eq, hc]
    by_cases hlen : POST_LIMIT < ((sortPosts qs).drop k).length
    · rw [if_pos (decide_eq_true hlen)]
      have hL9 : k + 9 < (sortPosts qs).length := by
        have := List.length_drop k (sortPosts qs)
        simp only [POST_LIMIT] at hlen
        omega
      have hL10 : k + 10 ≤ (sortPosts qs).length := by
        have := List.length_drop k (sortPosts qs)
        simp only [POST_LIMIT] at hlen
        omega
      have hlast :
          (((sortPosts qs).drop k).take POST_LIMIT).getLast? =
            some ((sortPosts qs).get ⟨k + 9, hL9⟩) := by
        rw [List.getLast?_eq_getElem?]
        have hlen' : (((sortPosts qs).drop k).take POST_LIMIT).length = 10 := by
          rw [List.length_take, List.length_drop]
          simp only [POST_LIMIT] at hlen ⊢
          omega
        rw [hlen']
        show (((sortPosts qs).drop k).take POST_LIMIT)[9]? = _
        rw [List.getElem?_take, if_pos (by norm_num [POST_LIMIT]),
          List.getElem?_drop, List.getElem?_eq_getElem (by omega)]
        rfl
      have hcursor :
          lastCursor (((sortPosts qs).drop k).take POST_LIMIT) =
            some (key ((sortPosts qs).get ⟨k + 9, hL9⟩)) := by
        unfold lastCursor
        rw [hlast]
      have hc' : cursorFilter qs
          (some (key ((sortPosts qs).get ⟨k + 9, hL9⟩))) =
            (sortPosts qs).drop (k + 10) := by
        show (sortPosts qs).filter _ = _
        exact filter_keyLt_drop (sortPosts qs) hs (k + 9) hL9
      have hrec := ih (k + 10)
        (some (key ((sortPosts qs).get ⟨k + 9, hL9⟩))) hc' (by omega)
      rw [hcursor, hrec]
      have hdd : (sortPosts qs).drop (k + 10) =
          ((sortPosts qs).drop k).drop 10 := by
        rw [List.drop_drop]
      rw [hdd]
      show (((sortPosts qs).drop k).take 10) ++ _ = _
      exact List.take_append_drop 10 ((sortPosts qs).drop k)
    · rw [if_neg ?hfalse]
      case hfalse =>
        rw [decide_eq_false hlen]
        simp
      exact List.take_of_length_le (by omega)

/-- C3: for any post set with pairwise distinct ids — any number of them
sharing identical timestamps — concatenating the first page with all
continuation pages obtained by feeding back the last returned item's
(timestamp, id) as the cursor yields exactly the sorted post set: a
permutation of the input (no duplicate, no omission) in strict
(timestamp desc, id desc) order. -/
theorem C3_pagination_completeness (qs : List PostRec)
    (hid : (qs.map PostRec.id).Nodup) :
    pageChain qs (qs.length + 1) none = sortPosts qs ∧
    (sortPosts qs).Perm qs ∧
    (sortPosts qs).Pairwise (fun a b => keyLt (key b) (key a)) := by
  have hs := sortPosts_strict qs hid
  have hlen : (sortPosts qs).length = qs.length :=
    (List.perm_insertionSort postLe qs).length_eq
  refine ⟨?_, List.perm_insertionSort postLe qs, hs⟩
  have h := pageChain_eq qs hs (qs.length + 1) 0 none ?_ ?_
  · simpa using h
  · show cursorFilter qs none = (sortPosts qs).drop 0
    rw [List.drop_zero]
    rfl
  · omega

/-- Twelve posts, all sharing one timestamp, ids 1..12. -/
def qsC3 : List PostRec :=
  [⟨1, 7, 5, "a"⟩, ⟨2, 7, 5, "b"⟩, ⟨3, 7, 5, "c"⟩, ⟨4, 7, 5, "d"⟩,
   ⟨5, 7, 5, "e"⟩, ⟨6, 7, 5, "f"⟩, ⟨7, 7, 5, "g"⟩, ⟨8, 7, 5, "h"⟩,
   ⟨9, 7, 5, "i"⟩, ⟨10, 7, 5, "j"⟩, ⟨11, 7, 5, "k"⟩, ⟨12, 7, 5, "l"⟩]

/-- Witness for C3: twelve posts with one shared timestamp — more than one
page — are walked completely by the cursor loop. -/
theorem C3_witness :
    (qsC3.map PostRec.id).Nodup ∧
    (pageChain qsC3 (qsC3.length + 1) none = sortPosts qsC3 ∧
     (sortPosts qsC3).Perm qsC3 ∧
     (sortPosts qsC3).Pairwise (fun a b => keyLt (key b) (key a))) :=
  ⟨by decide, C3_pagination_completeness qsC3 (by decide)⟩

end SocialNetwork
